import Mathlib

/-!
Verification development for the Kite trading-analysis platform.

The repository's frontend (react-trading-ui) is embedded directly from its
TypeScript source: the response transform of
analysisAPI.getComprehensiveAnalysis (services/api.ts), the token utility
tokenUtils.isTokenExpired (services/api.ts), the Fibonacci proximity
classification of AnalysisPage, and the getAnalysis action of useMarketStore.
The Python analysis engine the backend README describes (detector.py,
comprehensive_market_analyzer.py, volume_fibonacci_analyzer.py) is not part
of the source tree; the definitions whose doc comments start with
"Modelled from the spec:" reconstruct the missing pieces from the
specification's own words.

Numbers are modelled by ℚ (exact arithmetic in place of IEEE doubles);
values that JavaScript leaves undefined are modelled by Option.
-/

/-! ## JavaScript value coercion helpers -/

/-- Model of the JavaScript idiom `x || d` on a numeric field: an absent
(undefined) value or the falsy number 0 falls back to the default. -/
def jsOrNum (o : Option ℚ) (d : ℚ) : ℚ :=
  match o with
  | none => d
  | some v => if v = 0 then d else v

/-- Model of the JavaScript idiom `x || d` on a string field: an absent
value or the falsy empty string falls back to the default. -/
def jsOrString (o : Option String) (d : String) : String :=
  match o with
  | none => d
  | some s => if s = "" then d else s

/-- Split a character list at every occurrence of the separator, mirroring
JavaScript String.prototype.split with a single-character separator. -/
def splitOnChar (sep : Char) : List Char → List (List Char)
  | [] => [[]]
  | c :: rest =>
    if c = sep then [] :: splitOnChar sep rest
    else
      match splitOnChar sep rest with
      | g :: gs => (c :: g) :: gs
      | [] => [[c]]

/-! ## JSON values and a model of JSON.parse -/

/-- JSON values as produced by JSON.parse. -/
inductive JsonVal : Type
  | null : JsonVal
  | bool (b : Bool) : JsonVal
  | num (q : ℚ) : JsonVal
  | str (s : String) : JsonVal
  | arr (items : List JsonVal) : JsonVal
  | obj (fields : List (String × JsonVal)) : JsonVal

/-- The opening-brace character, kept as a named constant. -/
def lbrace : Char := Char.ofNat 123

/-- The closing-brace character, kept as a named constant. -/
def rbrace : Char := Char.ofNat 125

/-- JSON insignificant whitespace. -/
def isJsonWs (c : Char) : Bool :=
  c = ' ' || c = Char.ofNat 9 || c = Char.ofNat 10 || c = Char.ofNat 13

/-- Drop leading JSON whitespace. -/
def skipWs : List Char → List Char
  | [] => []
  | c :: cs => if isJsonWs c then skipWs cs else c :: cs

/-- Leading run of decimal digits, returned as digit values with the rest. -/
def takeDigits : List Char → List ℕ × List Char
  | [] => ([], [])
  | c :: cs =>
    if c.isDigit then
      let r := takeDigits cs
      ((c.toNat - 48) :: r.1, r.2)
    else ([], c :: cs)

/-- Value of a digit string. -/
def digitsToNat (ds : List ℕ) : ℕ := ds.foldl (fun a d => a * 10 + d) 0

/-- Ten to an integer power, as a rational. -/
def tenPow (e : ℤ) : ℚ :=
  if 0 ≤ e then ((10 : ℚ) ^ e.toNat) else 1 / (10 : ℚ) ^ (-e).toNat

/-- Parse the fractional part of a number (empty if no dot follows). -/
def parseFrac (cs : List Char) : Option (ℚ × List Char) :=
  match cs with
  | c :: cs1 =>
    if c = '.' then
      let p := takeDigits cs1
      match p.1 with
      | [] => none
      | fds => some ((digitsToNat fds : ℚ) / (10 : ℚ) ^ fds.length, p.2)
    else some (0, cs)
  | [] => some (0, [])

/-- Parse an optional exponent clause. -/
def parseExpo (cs : List Char) : Option (ℤ × List Char) :=
  match cs with
  | c :: cs1 =>
    if c = 'e' || c = 'E' then
      let sp : ℤ × List Char :=
        match cs1 with
        | c2 :: rest =>
          if c2 = '+' then (1, rest)
          else if c2 = '-' then (-1, rest)
          else (1, cs1)
        | [] => (1, [])
      match takeDigits sp.2 with
      | ([], _) => none
      | (ds, rest) => some (sp.1 * (digitsToNat ds : ℤ), rest)
    else some (0, cs)
  | [] => some (0, [])

/-- Parse a JSON number literal (sign, integer part without leading zeros,
optional fraction and exponent). -/
def parseNumber (cs : List Char) : Option (ℚ × List Char) :=
  let sp : Bool × List Char :=
    match cs with
    | c :: rest => if c = '-' then (true, rest) else (false, cs)
    | [] => (false, [])
  let ip := takeDigits sp.2
  match ip.1 with
  | [] => none
  | d :: rest =>
    if d = 0 ∧ rest ≠ [] then none
    else
      match parseFrac ip.2 with
      | none => none
      | some (fv, cs3) =>
        match parseExpo cs3 with
        | none => none
        | some (ev, cs4) =>
          let base : ℚ := (digitsToNat ip.1 : ℚ) + fv
          let v := base * tenPow ev
          some (if sp.1 then -v else v, cs4)

/-- Hexadecimal digit value. -/
def hexVal (c : Char) : Option ℕ :=
  if c.isDigit then some (c.toNat - 48)
  else if 'a' ≤ c ∧ c ≤ 'f' then some (c.toNat - 87)
  else if 'A' ≤ c ∧ c ≤ 'F' then some (c.toNat - 55)
  else none

/-- Parse the body of a JSON string after the opening quote, handling the
escape sequences JSON.parse accepts and rejecting raw control characters. -/
def parseStringChars : ℕ → List Char → Option (List Char × List Char)
  | 0, _ => none
  | _, [] => none
  | fuel + 1, c :: cs =>
    if c = '"' then some ([], cs)
    else if c = '\\' then
      match cs with
      | [] => none
      | e :: cs1 =>
        if e = '"' || e = '\\' || e = '/' then
          match parseStringChars fuel cs1 with
          | none => none
          | some (r, rest) => some (e :: r, rest)
        else if e = 'n' || e = 't' || e = 'r' || e = 'b' || e = 'f' then
          let decoded : Char :=
            if e = 'n' then Char.ofNat 10
            else if e = 't' then Char.ofNat 9
            else if e = 'r' then Char.ofNat 13
            else if e = 'b' then Char.ofNat 8
            else Char.ofNat 12
          match parseStringChars fuel cs1 with
          | none => none
          | some (r, rest) => some (decoded :: r, rest)
        else if e = 'u' then
          match cs1 with
          | h1 :: h2 :: h3 :: h4 :: cs2 =>
            match hexVal h1, hexVal h2, hexVal h3, hexVal h4 with
            | some v1, some v2, some v3, some v4 =>
              match parseStringChars fuel cs2 with
              | none => none
              | some (r, rest) =>
                some (Char.ofNat (((v1 * 16 + v2) * 16 + v3) * 16 + v4) :: r, rest)
            | _, _, _, _ => none
          | _ => none
        else none
    else if c.toNat < 32 then none
    else
      match parseStringChars fuel cs with
      | none => none
      | some (r, rest) => some (c :: r, rest)

mutual

/-- Fuel-indexed recursive-descent parser for a JSON value. -/
def parseValue : ℕ → List Char → Option (JsonVal × List Char)
  | 0, _ => none
  | fuel + 1, cs =>
    match skipWs cs with
    | [] => none
    | c :: rest =>
      if c = lbrace then
        match skipWs rest with
        | [] => none
        | c2 :: rest2 =>
          if c2 = rbrace then some (.obj [], rest2)
          else
            match parseMembers fuel (c2 :: rest2) with
            | none => none
            | some (fs, r) => some (.obj fs, r)
      else if c = '[' then
        match skipWs rest with
        | [] => none
        | c2 :: rest2 =>
          if c2 = ']' then some (.arr [], rest2)
          else
            match parseElements fuel (c2 :: rest2) with
            | none => none
            | some (xs, r) => some (.arr xs, r)
      else if c = '"' then
        match parseStringChars (rest.length + 1) rest with
        | none => none
        | some (sc, r) => some (.str (String.mk sc), r)
      else if c = 't' then
        match rest with
        | 'r' :: 'u' :: 'e' :: r => some (.bool true, r)
        | _ => none
      else if c = 'f' then
        match rest with
        | 'a' :: 'l' :: 's' :: 'e' :: r => some (.bool false, r)
        | _ => none
      else if c = 'n' then
        match rest with
        | 'u' :: 'l' :: 'l' :: r => some (.null, r)
        | _ => none
      else
        match parseNumber (c :: rest) with
        | none => none
        | some (q, r) => some (.num q, r)

/-- Parse the members of a JSON object after its opening brace. -/
def parseMembers : ℕ → List Char → Option (List (String × JsonVal) × List Char)
  | 0, _ => none
  | fuel + 1, cs =>
    match skipWs cs with
    | [] => none
    | c :: rest =>
      if c = '"' then
        match parseStringChars (rest.length + 1) rest with
        | none => none
        | some (key, r1) =>
          match skipWs r1 with
          | [] => none
          | c2 :: r2 =>
            if c2 = ':' then
              match parseValue fuel r2 with
              | none => none
              | some (v, r3) =>
                match skipWs r3 with
                | [] => none
                | c3 :: r4 =>
                  if c3 = ',' then
                    match parseMembers fuel r4 with
                    | none => none
                    | some (fs, r5) => some ((String.mk key, v) :: fs, r5)
                  else if c3 = rbrace then some ([(String.mk key, v)], r4)
                  else none
            else none
      else none

/-- Parse the elements of a JSON array after its opening bracket. -/
def parseElements : ℕ → List Char → Option (List JsonVal × List Char)
  | 0, _ => none
  | fuel + 1, cs =>
    match parseValue fuel cs with
    | none => none
    | some (v, r1) =>
      match skipWs r1 with
      | [] => none
      | c :: r2 =>
        if c = ',' then
          match parseElements fuel r2 with
          | none => none
          | some (xs, r3) => some (v :: xs, r3)
        else if c = ']' then some ([v], r2)
        else none

end

/-- Model of JSON.parse: parse one value and require only whitespace after. -/
def jsonParse (s : String) : Option JsonVal :=
  match parseValue (2 * s.length + 4) s.data with
  | none => none
  | some (v, rest) => if skipWs rest = [] then some v else none

/-- Property lookup on a parsed JSON object: later duplicate keys win, as
they do for the objects JSON.parse builds. -/
def jsonLookup (fields : List (String × JsonVal)) (key : String) : Option JsonVal :=
  fields.foldl (fun acc f => if f.1 = key then some f.2 else acc) (none : Option JsonVal)

/-! ## Model of window.atob (forgiving base64 decode) -/

/-- ASCII whitespace stripped by the forgiving-base64 decoder. -/
def isB64Ws (c : Char) : Bool :=
  c = ' ' || c = Char.ofNat 9 || c = Char.ofNat 10 || c = Char.ofNat 12 || c = Char.ofNat 13

/-- Value of a base64 alphabet character. -/
def base64Val (c : Char) : Option ℕ :=
  if 'A' ≤ c ∧ c ≤ 'Z' then some (c.toNat - 65)
  else if 'a' ≤ c ∧ c ≤ 'z' then some (c.toNat - 71)
  else if '0' ≤ c ∧ c ≤ '9' then some (c.toNat + 4)
  else if c = '+' then some 62
  else if c = '/' then some 63
  else none

/-- Turn a stream of 6-bit groups into bytes, discarding trailing bits. -/
def decodeBits (vals : List ℕ) : List ℕ :=
  ((vals.foldl
      (fun (st : ℕ × ℕ × List ℕ) v =>
        let buf := st.1 * 64 + v
        let bits := st.2.1 + 6
        if 8 ≤ bits then
          (buf % 2 ^ (bits - 8), bits - 8, buf / 2 ^ (bits - 8) :: st.2.2)
        else (buf, bits, st.2.2))
      (0, 0, [])).2.2).reverse

/-- Model of window.atob: strip ASCII whitespace, strip up to two trailing
padding characters when the length is a multiple of four, reject a length
congruent to one modulo four or any character outside the alphabet, and
decode the 6-bit groups; each decoded byte becomes one character. -/
def atob (s : String) : Option String :=
  let cs0 := s.data.filter (fun c => ¬ isB64Ws c)
  let cs1 :=
    if cs0.length % 4 = 0 then
      match cs0.reverse with
      | '=' :: '=' :: rest => rest.reverse
      | '=' :: rest => rest.reverse
      | _ => cs0
    else cs0
  if cs1.length % 4 = 1 then none
  else
    match cs1.mapM base64Val with
    | none => none
    | some vals => some (String.mk ((decodeBits vals).map Char.ofNat))

/-! ## Model of tokenUtils.isTokenExpired (services/api.ts) -/

/-- JavaScript whitespace trimmed by ToNumber on strings. -/
def trimJsWs (cs : List Char) : List Char :=
  ((cs.dropWhile isB64Ws).reverse.dropWhile isB64Ws).reverse

/-- Parse a JavaScript decimal number literal for string-to-number coercion;
sign, then digits around an optional dot, then an optional exponent, with
nothing left over. Hexadecimal and Infinity forms are outside the model. -/
def parseJsNumber (cs : List Char) : Option ℚ :=
  let sp : ℚ × List Char :=
    match cs with
    | c :: rest =>
      if c = '-' then (-1, rest) else if c = '+' then (1, rest) else (1, cs)
    | [] => (1, [])
  let ip := takeDigits sp.2
  let fp : List ℕ × List Char :=
    match ip.2 with
    | c :: rest => if c = '.' then takeDigits rest else ([], ip.2)
    | [] => ([], [])
  if ip.1 = [] ∧ fp.1 = [] then none
  else
    match parseExpo fp.2 with
    | none => none
    | some (ev, cs4) =>
      if cs4 = [] then
        some (sp.1 * ((digitsToNat ip.1 : ℚ) + (digitsToNat fp.1 : ℚ) / (10 : ℚ) ^ fp.1.length) * tenPow ev)
      else none

/-- JavaScript ToNumber on a string: trimmed empty strings are zero,
otherwise the decimal literal is parsed, anything else is NaN (none). -/
def strToNumber (s : String) : Option ℚ :=
  match trimJsWs s.data with
  | [] => some 0
  | cs => parseJsNumber cs

/-- JavaScript ToNumber applied to the value of a property access on a
parsed JSON payload; none stands for NaN. A missing property (undefined)
is NaN, null is 0, booleans are 0 or 1, strings coerce through their
decimal reading, the empty array is 0, and remaining array and object
coercions are collapsed to NaN as a model boundary. -/
def jsToNumber : Option JsonVal → Option ℚ
  | none => none
  | some .null => some 0
  | some (.bool b) => some (if b then 1 else 0)
  | some (.num q) => some q
  | some (.str s) => strToNumber s
  | some (.arr []) => some 0
  | some (.arr (_ :: _)) => none
  | some (.obj _) => none

/-- The middle dot-separated part of the token, the payload segment that
isTokenExpired decodes; when fewer than two parts exist, JavaScript's
atob coerces the undefined index to the string "undefined". -/
def tokenPayloadPart (token : String) : String :=
  String.mk ((splitOnChar '.' token.data).getD 1 ("undefined".data))

/-- Embedding of tokenUtils.isTokenExpired: decode the payload segment,
parse it as JSON and compare exp seconds times 1000 against the clock;
any exception along the way is caught and reported as expired. A null
payload throws on the property access (hence true), while a payload
lacking a numeric exp member makes the comparison NaN-false. -/
def isTokenExpired (token : String) (nowMs : ℚ) : Bool :=
  match atob (tokenPayloadPart token) with
  | none => true
  | some decoded =>
    match jsonParse decoded with
    | none => true
    | some payload =>
      match payload with
      | .null => true
      | .obj fields =>
        match jsToNumber (jsonLookup fields "exp") with
        | none => false
        | some e => decide (e * 1000 < nowMs)
      | _ => false

/-! ## Backend payload shape read by the response transform

The FastAPI backend answers POST /analysis with a loosely-typed JSON body;
these structures record exactly the fields the frontend transform reads,
each Option because the transform guards every access with optional
chaining or a falsy-default. -/

structure BackendKeyLevel where
  ratio : Option ℚ
  price : Option ℚ
  distance_percent : Option ℚ
deriving DecidableEq

structure BackendFibAnalysis where
  key_levels : Option (List BackendKeyLevel)
deriving DecidableEq

structure BackendPattern where
  pattern_id : Option String
  pattern_name : Option String
  pattern_type : Option String
  reliability_score : Option ℚ
  bias : Option String
deriving DecidableEq

structure BackendTrend where
  direction : Option String
  strength : Option String
deriving DecidableEq

structure BackendMarketStructure where
  trend : Option BackendTrend
deriving DecidableEq

structure BackendAnalysisSummary where
  current_price : Option ℚ
  analysis_focus : Option String
deriving DecidableEq

structure BackendComprehensiveData where
  analysis_summary : Option BackendAnalysisSummary
  fibonacci_analysis : Option BackendFibAnalysis
  chart_patterns : Option (List BackendPattern)
  current_market_structure : Option BackendMarketStructure
deriving DecidableEq

/-- TradingOpportunity of types/api.ts; passed through the transform
unchanged. -/
structure TradingOpportunity where
  type : Option String
  description : Option String
  entry_price : Option ℚ
  target_price : Option ℚ
  stop_loss : Option ℚ
  risk_reward_ratio : Option ℚ
  confidence_level : Option ℚ
  reliability : Option ℚ
  setup_type : Option String
  setup_description : Option String
  timeframe : Option String
deriving DecidableEq

/-- MathematicalAnalysisData of types/api.ts. -/
structure MathematicalAnalysisData where
  hurst_exponent : Option ℚ
  fractal_dimension : Option ℚ
  shannon_entropy : Option ℚ
  lyapunov_exponent : Option ℚ
  detrended_fluctuation_analysis : Option ℚ
  mathematical_patterns : Option (List JsonVal)
  chaos_indicators : Option (List JsonVal)
  complexity_metrics : Option (List JsonVal)

/-- The mathematical_indicators section of ComprehensiveAnalysis in
types/api.ts. -/
structure MathematicalIndicators where
  hurst_exponent : Option ℚ
  fractal_dimension : Option ℚ
  shannon_entropy : Option ℚ
  lyapunov_exponent : Option ℚ
  detrended_fluctuation_analysis : Option ℚ
  approximate_entropy : Option ℚ
  correlation_dimension : Option ℚ
  recurrence_quantification : Option ℚ
  multifractal_spectrum : Option (List JsonVal)
  wavelet_analysis : Option (List JsonVal)
  fourier_analysis : Option (List JsonVal)
  chaos_game_representation : Option (List JsonVal)
  phase_space_reconstruction : Option (List JsonVal)

structure PercentageStops where
  conservative : Option ℚ
  moderate : Option ℚ
  tight : Option ℚ
deriving DecidableEq

structure StopLossLevels where
  percentage_stops : Option PercentageStops
deriving DecidableEq

/-- The risk_management section of ComprehensiveAnalysis in types/api.ts. -/
structure RiskManagement where
  portfolio_risk : Option ℚ
  position_sizing : Option String
  max_drawdown : Option ℚ
  stop_loss_strategy : Option String
  stop_loss_levels : Option StopLossLevels
  risk_per_trade : Option ℚ
deriving DecidableEq

/-- The raw body answered by POST /analysis as the transform reads it. -/
structure BackendResponse where
  comprehensive_data : Option BackendComprehensiveData
  trading_opportunities : Option (List TradingOpportunity)
  mathematical_analysis : Option MathematicalAnalysisData
  mathematical_indicators : Option MathematicalIndicators
  risk_management : Option RiskManagement

/-! ## Frontend ComprehensiveAnalysis shape built by the transform -/

structure AnalysisSummary where
  stock_symbol : String
  analysis_date : String
  current_price : ℚ
  analysis_focus : String
deriving DecidableEq

structure SwingPointRef where
  price : ℚ
  date : String
deriving DecidableEq

structure CurrentFibonacciAnalysis where
  current_price : ℚ
  trend_direction : String
  most_recent_swing_high : SwingPointRef
  most_recent_swing_low : SwingPointRef
deriving DecidableEq

/-- FibonacciLevel as constructed by the transform (level, price and
distance_percent are always present there). -/
structure FibonacciLevel where
  level : ℚ
  price : ℚ
  distance_percent : ℚ
deriving DecidableEq

structure FibonacciRetracements where
  retracement_levels : List FibonacciLevel
deriving DecidableEq

structure FibonacciExtensions where
  extension_levels : List FibonacciLevel
deriving DecidableEq

structure FibonacciAnalysis where
  current_fibonacci_analysis : CurrentFibonacciAnalysis
  fibonacci_retracements : FibonacciRetracements
  fibonacci_extensions : FibonacciExtensions
  closest_levels : List FibonacciLevel
  current_level_context : String
deriving DecidableEq

/-- ChartPattern with the five fields the transform's object literal
actually constructs; the remaining optional fields of the interface stay
undefined in that object. -/
structure ChartPattern where
  pattern_id : String
  pattern_name : String
  pattern_type : String
  reliability_score : ℚ
  expected_direction : String
deriving DecidableEq

structure VolumeProfile where
  total_volume : ℚ
  average_daily_volume : ℚ
  volume_weighted_average_price : ℚ
  significant_volume_levels : List JsonVal

structure VolumePriceConfirmation where
  recent_confirmations : List JsonVal
  confirmation_rate : String
  overall_assessment : String

structure RecentVolumeAnomalies where
  spikes : List JsonVal
  analysis_summary : String

structure VolumeAnalysis where
  volume_profile : VolumeProfile
  volume_price_confirmation : VolumePriceConfirmation
  recent_volume_anomalies : RecentVolumeAnomalies

structure CurrentTrend where
  direction : String
  strength : String
  duration_days : ℚ
  key_levels : List JsonVal

structure MomentumEntry where
  direction : String
  change : ℚ
  change_pct : ℚ

/-- Momentum with fields day1, day5, day20 standing for the source keys
1_day, 5_day and 20_day. -/
structure Momentum where
  day1 : MomentumEntry
  day5 : MomentumEntry
  day20 : MomentumEntry

structure VolatilitySection where
  current_volatility : ℚ
  volatility_percentile : ℚ
  volatility_assessment : String

structure CurrentMarketStructure where
  current_trend : CurrentTrend
  momentum : Momentum
  volatility : VolatilitySection

structure PositionRecommendations where
  current_stance : String
  position_sizing : String
  hold_period : String
deriving DecidableEq

structure ImmediateTradingPlan where
  trading_bias : String
  immediate_actions : List JsonVal
  position_recommendations : PositionRecommendations
  fibonacci_key_levels : List JsonVal

structure ComprehensiveAnalysis where
  analysis_summary : AnalysisSummary
  fibonacci_analysis : FibonacciAnalysis
  active_patterns : List ChartPattern
  volume_analysis : VolumeAnalysis
  current_market_structure : CurrentMarketStructure
  trading_opportunities : List TradingOpportunity
  mathematical_analysis : MathematicalAnalysisData
  mathematical_indicators : MathematicalIndicators
  immediate_trading_plan : ImmediateTradingPlan
  risk_management : RiskManagement

/-! ## The response transform of analysisAPI.getComprehensiveAnalysis -/

/-- The empty object the idiom comprehensive_data || \x7b\x7d falls back to. -/
def emptyComprehensiveData : BackendComprehensiveData :=
  { analysis_summary := none, fibonacci_analysis := none, chart_patterns := none
  , current_market_structure := none }

/-- The empty object mathematical_analysis || \x7b\x7d falls back to. -/
def emptyMathematicalAnalysis : MathematicalAnalysisData :=
  { hurst_exponent := none, fractal_dimension := none, shannon_entropy := none
  , lyapunov_exponent := none, detrended_fluctuation_analysis := none
  , mathematical_patterns := none, chaos_indicators := none, complexity_metrics := none }

/-- The empty object mathematical_indicators || \x7b\x7d falls back to. -/
def emptyMathematicalIndicators : MathematicalIndicators :=
  { hurst_exponent := none, fractal_dimension := none, shannon_entropy := none
  , lyapunov_exponent := none, detrended_fluctuation_analysis := none
  , approximate_entropy := none, correlation_dimension := none
  , recurrence_quantification := none, multifractal_spectrum := none
  , wavelet_analysis := none, fourier_analysis := none
  , chaos_game_representation := none, phase_space_reconstruction := none }

/-- The empty object risk_management || \x7b\x7d falls back to. -/
def emptyRiskManagement : RiskManagement :=
  { portfolio_risk := none, position_sizing := none, max_drawdown := none
  , stop_loss_strategy := none, stop_loss_levels := none, risk_per_trade := none }

/-- Model of new Date().toISOString().split(the letter T)(0): the calendar
date part of the clock's ISO timestamp. -/
def analysisDateOf (nowIso : String) : String :=
  String.mk ((splitOnChar 'T' nowIso.data).headD [])

/-- The level mapper of the transform: level from parseFloat(ratio || 0),
price from price || 0 and distance_percent from Math.abs(distance || 0). -/
def mapKeyLevel (l : BackendKeyLevel) : FibonacciLevel :=
  { level := jsOrNum l.ratio 0
  , price := jsOrNum l.price 0
  , distance_percent := |jsOrNum l.distance_percent 0| }

/-- The pattern mapper of the transform, with its falsy defaults. -/
def mapPattern (p : BackendPattern) : ChartPattern :=
  { pattern_id := jsOrString p.pattern_id "UNKNOWN"
  , pattern_name := jsOrString p.pattern_name "Unknown Pattern"
  , pattern_type := jsOrString p.pattern_type "General"
  , reliability_score := jsOrNum p.reliability_score 0
  , expected_direction := jsOrString p.bias "Neutral" }

/-- comprehensiveData.fibonacci_analysis?.key_levels || (empty list). -/
def backendKeyLevels (b : BackendResponse) : List BackendKeyLevel :=
  (((b.comprehensive_data.getD emptyComprehensiveData).fibonacci_analysis).bind
    (fun f => f.key_levels)).getD []

/-- comprehensiveData.chart_patterns || (empty list). -/
def backendPatterns (b : BackendResponse) : List BackendPattern :=
  ((b.comprehensive_data.getD emptyComprehensiveData).chart_patterns).getD []

/-- comprehensiveData.analysis_summary?.current_price || 0. -/
def backendCurrentPrice (b : BackendResponse) : ℚ :=
  jsOrNum (((b.comprehensive_data.getD emptyComprehensiveData).analysis_summary).bind
    (fun a => a.current_price)) 0

/-- comprehensiveData.analysis_summary?.analysis_focus with its default. -/
def backendAnalysisFocus (b : BackendResponse) : String :=
  jsOrString (((b.comprehensive_data.getD emptyComprehensiveData).analysis_summary).bind
    (fun a => a.analysis_focus)) "Mathematical Analysis"

/-- comprehensiveData.current_market_structure?.trend?.direction with its
default. -/
def backendTrendDirection (b : BackendResponse) : String :=
  jsOrString ((((b.comprehensive_data.getD emptyComprehensiveData).current_market_structure).bind
    (fun m => m.trend)).bind (fun t => t.direction)) "Neutral"

/-- comprehensiveData.current_market_structure?.trend?.strength with its
default. -/
def backendTrendStrength (b : BackendResponse) : String :=
  jsOrString ((((b.comprehensive_data.getD emptyComprehensiveData).current_market_structure).bind
    (fun m => m.trend)).bind (fun t => t.strength)) "Medium"

/-- Embedding of the response transform inside
analysisAPI.getComprehensiveAnalysis (services/api.ts): the backend body
and the clock's ISO timestamp are explicit inputs, and every field of the
returned object follows the source literal. -/
def getComprehensiveAnalysis (symbol : String) (nowIso : String)
    (b : BackendResponse) : ComprehensiveAnalysis :=
  { analysis_summary :=
    { stock_symbol := symbol
    , analysis_date := analysisDateOf nowIso
    , current_price := backendCurrentPrice b
    , analysis_focus := backendAnalysisFocus b }
  , fibonacci_analysis :=
    { current_fibonacci_analysis :=
      { current_price := backendCurrentPrice b
      , trend_direction := "Mathematical Analysis"
      , most_recent_swing_high := { price := 0, date := "" }
      , most_recent_swing_low := { price := 0, date := "" } }
    , fibonacci_retracements :=
      { retracement_levels := (backendKeyLevels b).map mapKeyLevel }
    , fibonacci_extensions := { extension_levels := [] }
    , closest_levels := []
    , current_level_context := "" }
  , active_patterns := (backendPatterns b).map mapPattern
  , volume_analysis :=
    { volume_profile :=
      { total_volume := 0, average_daily_volume := 0
      , volume_weighted_average_price := 0, significant_volume_levels := [] }
    , volume_price_confirmation :=
      { recent_confirmations := [], confirmation_rate := "", overall_assessment := "" }
    , recent_volume_anomalies := { spikes := [], analysis_summary := "" } }
  , current_market_structure :=
    { current_trend :=
      { direction := backendTrendDirection b
      , strength := backendTrendStrength b
      , duration_days := 0, key_levels := [] }
    , momentum :=
      { day1 := { direction := "Neutral", change := 0, change_pct := 0 }
      , day5 := { direction := "Neutral", change := 0, change_pct := 0 }
      , day20 := { direction := "Neutral", change := 0, change_pct := 0 } }
    , volatility :=
      { current_volatility := 0, volatility_percentile := 0
      , volatility_assessment := "Normal" } }
  , trading_opportunities := b.trading_opportunities.getD []
  , mathematical_analysis := b.mathematical_analysis.getD emptyMathematicalAnalysis
  , mathematical_indicators := b.mathematical_indicators.getD emptyMathematicalIndicators
  , immediate_trading_plan :=
    { trading_bias := "Neutral"
    , immediate_actions := []
    , position_recommendations :=
      { current_stance := "Hold", position_sizing := "Normal", hold_period := "Medium-term" }
    , fibonacci_key_levels := [] }
  , risk_management := b.risk_management.getD emptyRiskManagement }

/-! ## AnalysisPage Fibonacci proximity classification -/

/-- Embedding of the significance column of AnalysisPage's retracement
table: distance below 2 is a critical level, below 5 a watch zone,
anything else a reference level. -/
def significanceLabel (distancePercent : ℚ) : String :=
  if distancePercent < 2 then "Critical Level"
  else if distancePercent < 5 then "Watch Zone"
  else "Reference Level"

/-! ## Specification-side definition for the trading-bias claim -/

/-- Statement of the claim's words, kept apart from the source embedding
for comparison: the overall bias is the score-weighted majority direction
among the emitted opportunities and a tied vote is neutral, reading each
opportunity's direction from its type tag and its score from its
confidence level. -/
def specWeightedBias (opps : List TradingOpportunity) : String :=
  let bull : ℚ := ((opps.filter (fun o => o.type = some "bullish")).map
    (fun o => o.confidence_level.getD 0)).sum
  let bear : ℚ := ((opps.filter (fun o => o.type = some "bearish")).map
    (fun o => o.confidence_level.getD 0)).sum
  if bear < bull then "bullish"
  else if bull < bear then "bearish"
  else "Neutral"

/-! ## Spec-modelled Fibonacci price formula (backend module absent) -/

/-- Modelled from the spec: the Fibonacci module of the Python backend
(volume_fibonacci_analyzer.py, absent from the source tree) computes each
level as price = low + ratio times (high minus low) in the uptrend form. -/
def fibLevelPrice (low high ratio : ℚ) : ℚ := low + ratio * (high - low)

/-- Modelled from the spec: the trend-inverted form of the same formula,
price = high minus ratio times (high minus low), used in a downtrend. -/
def fibLevelPriceInv (low high ratio : ℚ) : ℚ := high - ratio * (high - low)

/-- The standard retracement ratios the spec lists. -/
def retracementRatios : List ℚ := [236/1000, 382/1000, 1/2, 618/1000, 786/1000]

/-- The standard extension ratios the spec lists. -/
def extensionRatios : List ℚ := [1272/1000, 1618/1000, 2, 2618/1000]

/-! ## Spec-modelled nonlinear indicator bank and engine entry
(backend engine absent) -/

/-- Modelled from the spec: the engine's fatal error taxonomy; the backend
implementing it is absent from the source tree. -/
inductive AnalysisError : Type
  | insufficientData : AnalysisError
  | configurationError : AnalysisError
deriving DecidableEq

/-- Modelled from the spec: an indicator is either an explicit
insufficient-data state, an explicit unavailable/degenerate flag, or a
numeric value with a qualitative label. -/
inductive IndicatorResult : Type
  | insufficientData : IndicatorResult
  | unavailable : IndicatorResult
  | value (v : ℚ) (label : String) : IndicatorResult
deriving DecidableEq

/-- A window is flat (zero variance) when every sample equals the first. -/
def zeroVariance (s : List ℚ) : Bool := s.all (fun x => x = s.headD 0)

/-- Modelled from the spec: every estimator of the indicator bank declares
a minimum window length and answers an explicit insufficient-data state
below it, and flat (zero-variance) windows are flagged degenerate before
the numeric estimator runs at all; the numeric estimator is a parameter,
since the backend estimator code is absent from the source tree. -/
def runIndicator (minLen : ℕ) (est : List ℚ → ℚ × String) (s : List ℚ) :
    IndicatorResult :=
  if s.length < minLen then .insufficientData
  else if zeroVariance s then .unavailable
  else .value (est s).1 (est s).2

/-- The indicator section of a run for the three estimators the degenerate
series claim names. -/
structure IndicatorBank where
  volatility : IndicatorResult
  entropy : IndicatorResult
  fractal : IndicatorResult
deriving DecidableEq

/-- Modelled from the spec: the engine rejects a series shorter than the
configured floor with InsufficientDataError before computing anything, and
otherwise completes the run with each indicator behind its own non-fatal
guard. -/
def analyzeIndicators (nMin minLen : ℕ)
    (volEst entEst fracEst : List ℚ → ℚ × String) (s : List ℚ) :
    Except AnalysisError IndicatorBank :=
  if s.length < nMin then .error .insufficientData
  else .ok
    { volatility := runIndicator minLen volEst s
    , entropy := runIndicator minLen entEst s
    , fractal := runIndicator minLen fracEst s }

/-- Modelled from the spec: the message attached to each fatal error. -/
def errorMessage : AnalysisError → String
  | .insufficientData => "InsufficientDataError"
  | .configurationError => "ConfigurationError"

/-- Adapter from the engine's typed failure to the message-carrying
rejection the frontend store catches. -/
def engineOutcome {α : Type} (e : Except AnalysisError α) : Except String α :=
  match e with
  | .ok a => .ok a
  | .error err => .error (errorMessage err)

/-! ## useMarketStore.getAnalysis (zustand store slice) -/

/-- The slice of the zustand market store that the getAnalysis action
touches, parameterised by the analysis payload type. -/
structure MarketStoreState (α : Type) where
  analysis : Option α
  analysisError : Option String
  isLoadingAnalysis : Bool

/-- Embedding of useMarketStore.getAnalysis: the action first raises the
loading flag and clears the error, then either stores the awaited
response or records the caught error's message (with its falsy default),
leaving the previous analysis untouched on failure. -/
def getAnalysis {α : Type} (st : MarketStoreState α) (outcome : Except String α) :
    MarketStoreState α :=
  let started : MarketStoreState α :=
    { st with isLoadingAnalysis := true, analysisError := none }
  match outcome with
  | .ok r => { started with analysis := some r, isLoadingAnalysis := false }
  | .error msg =>
    { started with
        analysisError := some (jsOrString (some msg) "Failed to load analysis")
      , isLoadingAnalysis := false }

/-! ## Concrete inputs used by the claim counterexamples and witnesses -/

/-- A trading opportunity with none of its optional fields set. -/
def emptyOpportunity : TradingOpportunity :=
  { type := none, description := none, entry_price := none, target_price := none
  , stop_loss := none, risk_reward_ratio := none, confidence_level := none
  , reliability := none, setup_type := none, setup_description := none
  , timeframe := none }

/-- A backend body with every section absent. -/
def backendEmpty : BackendResponse :=
  { comprehensive_data := none, trading_opportunities := none
  , mathematical_analysis := none, mathematical_indicators := none
  , risk_management := none }

/-- Backend body for the extension-set counterexample: the Fibonacci
section reports a key level, so a qualifying swing pair existed upstream. -/
def backendC3 : BackendResponse :=
  { backendEmpty with
      comprehensive_data := some
        { analysis_summary := none
        , fibonacci_analysis := some
            { key_levels := some [{ ratio := some (618/1000), price := some 1234
                                  , distance_percent := some (-3) }] }
        , chart_patterns := none
        , current_market_structure := none } }

/-- Backend body for the trading-bias counterexample: a single bullish
opportunity with a positive score. -/
def backendC4 : BackendResponse :=
  { backendEmpty with
      trading_opportunities := some
        [{ emptyOpportunity with type := some "bullish", confidence_level := some (9/10) }] }

/-- Backend body for the reliability-score witness: one pattern with a
score inside the unit interval and one with the score absent. -/
def backendC6 : BackendResponse :=
  { backendEmpty with
      comprehensive_data := some
        { analysis_summary := none
        , fibonacci_analysis := none
        , chart_patterns := some
            [ { pattern_id := some "P1", pattern_name := some "Double Top"
              , pattern_type := some "Reversal", reliability_score := some (7/10)
              , bias := some "Bearish" }
            , { pattern_id := none, pattern_name := none, pattern_type := none
              , reliability_score := none, bias := none } ]
        , current_market_structure := none } }

/-- A backend key level whose distance field is absent, for the
distance-percent witness. -/
def keyLevelC9 : BackendKeyLevel :=
  { ratio := some (1/2), price := some 100, distance_percent := none }

/-- Backend body for the distance-percent witness. -/
def backendC9 : BackendResponse :=
  { backendEmpty with
      comprehensive_data := some
        { analysis_summary := none
        , fibonacci_analysis := some { key_levels := some [keyLevelC9] }
        , chart_patterns := none
        , current_market_structure := none } }

/-! ## Helper lemmas -/

/-- A constant series has zero variance. -/
theorem zeroVariance_replicate (n : ℕ) (c : ℚ) :
    zeroVariance (List.replicate n c) = true := by
  cases n with
  | zero => rfl
  | succ m =>
    unfold zeroVariance
    rw [List.all_eq_true]
    intro x hx
    have hm := List.eq_of_mem_replicate hx
    simp [List.replicate_succ, hm]

/-- A guarded indicator never reaches its numeric branch on a flat
window: it answers one of the two explicit degenerate states. -/
theorem runIndicator_flat (m : ℕ) (est : List ℚ → ℚ × String) (s : List ℚ)
    (hz : zeroVariance s = true) :
    runIndicator m est s = .insufficientData ∨ runIndicator m est s = .unavailable := by
  unfold runIndicator
  by_cases hlt : s.length < m
  · rw [if_pos hlt]
    exact Or.inl rfl
  · rw [if_neg hlt, if_pos hz]
    exact Or.inr rfl

/-! ## Claim C1 -/

/-- Claim C1: the proximity classification of a Fibonacci level is a
function of its percentage distance from the current price alone — below
2 the critical level, at least 2 but below 5 the watch zone, and at 5 or
above the reference label. -/
theorem fibProximityClassification (d : ℚ) :
    (d < 2 → significanceLabel d = "Critical Level") ∧
    (2 ≤ d → d < 5 → significanceLabel d = "Watch Zone") ∧
    (5 ≤ d → significanceLabel d = "Reference Level") := by
  unfold significanceLabel
  refine ⟨fun h => ?_, fun h1 h2 => ?_, fun h => ?_⟩
  · rw [if_pos h]
  · rw [if_neg (by linarith), if_pos h2]
  · rw [if_neg (by linarith), if_neg (by linarith)]

/-- Witness for claim C1 at the concrete distances 1, 3 and 7. -/
theorem fibProximityClassification_witness :
    significanceLabel 1 = "Critical Level" ∧
    significanceLabel 3 = "Watch Zone" ∧
    significanceLabel 7 = "Reference Level" :=
  ⟨(fibProximityClassification 1).1 (by norm_num),
   (fibProximityClassification 3).2.1 (by norm_num) (by norm_num),
   (fibProximityClassification 7).2.2 (by norm_num)⟩

/-! ## Claim C2 -/

/-- Counterexample to claim C2 as stated: the transform stamps the result
with the clock's calendar date, so the very same backend body and symbol
produce different results on different days — the result is not a
function of input and options alone. -/
theorem analysisDependsOnClock :
    getComprehensiveAnalysis "RELIANCE" "2024-03-01T09:15:00.000Z" backendEmpty ≠
    getComprehensiveAnalysis "RELIANCE" "2024-03-02T09:15:00.000Z" backendEmpty := by
  intro h
  exact absurd (congrArg (fun r => r.analysis_summary.analysis_date) h) (by decide)

/-- Claim C2 (amended): with the ambient clock made explicit, the
transform is deterministic — two runs on the identical backend body and
symbol whose clock readings fall on the same calendar date produce the
identical result. -/
theorem analysisSameDayDeterministic (symbol : String) (b : BackendResponse)
    (t1 t2 : String) (h : analysisDateOf t1 = analysisDateOf t2) :
    getComprehensiveAnalysis symbol t1 b = getComprehensiveAnalysis symbol t2 b := by
  unfold getComprehensiveAnalysis
  rw [h]

/-- Witness for claim C2 at two clock readings of the same day. -/
theorem analysisSameDayDeterministic_witness :
    getComprehensiveAnalysis "TCS" "2024-03-01T09:15:00.000Z" backendEmpty =
    getComprehensiveAnalysis "TCS" "2024-03-01T15:30:00.000Z" backendEmpty :=
  analysisSameDayDeterministic "TCS" backendEmpty
    "2024-03-01T09:15:00.000Z" "2024-03-01T15:30:00.000Z" (by decide)

/-! ## Claim C3 -/

/-- Counterexample to claim C3 as stated: on a backend body whose
Fibonacci section reports a key level (so a qualifying swing pair
existed), the delivered retracement set is populated but the extension
set is still empty. -/
theorem extensionsEmptyDespiteSwingPair :
    backendKeyLevels backendC3 ≠ [] ∧
    (getComprehensiveAnalysis "INFY" "2024-03-01T09:15:00.000Z"
      backendC3).fibonacci_analysis.fibonacci_retracements.retracement_levels ≠ [] ∧
    (getComprehensiveAnalysis "INFY" "2024-03-01T09:15:00.000Z"
      backendC3).fibonacci_analysis.fibonacci_extensions.extension_levels = [] :=
  ⟨by decide, by decide, rfl⟩

/-- Claim C3 (amended): every analysis result carries both sets, the
retracement set mapped level-for-level from the backend's key levels and
the extension set unconditionally empty, whatever the input. -/
theorem extensionLevelsAlwaysEmpty (symbol nowIso : String) (b : BackendResponse) :
    (getComprehensiveAnalysis symbol nowIso
      b).fibonacci_analysis.fibonacci_extensions.extension_levels = [] ∧
    (getComprehensiveAnalysis symbol nowIso
      b).fibonacci_analysis.fibonacci_retracements.retracement_levels.length =
      (backendKeyLevels b).length := by
  refine ⟨rfl, ?_⟩
  show ((backendKeyLevels b).map mapKeyLevel).length = (backendKeyLevels b).length
  exact List.length_map _ _

/-! ## Claim C4 -/

/-- Counterexample to claim C4 as stated: a result whose emitted
opportunities vote bullish with positive weight still reports the bias
Neutral, differing from the score-weighted majority the claim describes. -/
theorem tradingBiasIgnoresOpportunities :
    specWeightedBias (getComprehensiveAnalysis "SBIN" "2024-03-01T09:15:00.000Z"
      backendC4).trading_opportunities = "bullish" ∧
    (getComprehensiveAnalysis "SBIN" "2024-03-01T09:15:00.000Z"
      backendC4).immediate_trading_plan.trading_bias ≠
      specWeightedBias (getComprehensiveAnalysis "SBIN" "2024-03-01T09:15:00.000Z"
        backendC4).trading_opportunities := by
  constructor
  · simp only [specWeightedBias, getComprehensiveAnalysis, backendC4, backendEmpty,
      emptyOpportunity, Option.getD, List.filter, List.map, List.sum_cons, List.sum_nil]
    norm_num
  · simp only [specWeightedBias, getComprehensiveAnalysis, backendC4, backendEmpty,
      emptyOpportunity, Option.getD, List.filter, List.map, List.sum_cons, List.sum_nil]
    norm_num
    decide

/-- Claim C4 (amended): the delivered trading bias is the constant
Neutral, independent of the emitted opportunities. -/
theorem tradingBiasConstantNeutral (symbol nowIso : String) (b : BackendResponse) :
    (getComprehensiveAnalysis symbol nowIso
      b).immediate_trading_plan.trading_bias = "Neutral" := rfl

/-! ## Claim C5 -/

/-- Claim C5: a retracement ratio in the unit interval keeps the level
price between the swing low and swing high in both trend forms, and an
extension ratio beyond one pushes the price beyond the swing in the trend
direction. -/
theorem fibLevelBounds (low high r : ℚ) (hlh : low ≤ high) :
    (0 ≤ r → r ≤ 1 →
      low ≤ fibLevelPrice low high r ∧ fibLevelPrice low high r ≤ high ∧
      low ≤ fibLevelPriceInv low high r ∧ fibLevelPriceInv low high r ≤ high) ∧
    (1 < r → low < high →
      high < fibLevelPrice low high r ∧ fibLevelPriceInv low high r < low) := by
  unfold fibLevelPrice fibLevelPriceInv
  constructor
  · intro h0 h1
    refine ⟨?_, ?_, ?_, ?_⟩ <;> nlinarith
  · intro h1 hlt
    constructor <;> nlinarith

/-- Witness for claim C5 with the standard 61.8 percent retracement and
161.8 percent extension ratios on the swing 100 to 200. -/
theorem fibLevelBounds_witness :
    (618/1000 : ℚ) ∈ retracementRatios ∧ (1618/1000 : ℚ) ∈ extensionRatios ∧
    100 ≤ fibLevelPrice 100 200 (618/1000) ∧ fibLevelPrice 100 200 (618/1000) ≤ 200 ∧
    200 < fibLevelPrice 100 200 (1618/1000) :=
  ⟨by simp [retracementRatios], by simp [extensionRatios],
   ((fibLevelBounds 100 200 (618/1000) (by norm_num)).1 (by norm_num) (by norm_num)).1,
   ((fibLevelBounds 100 200 (618/1000) (by norm_num)).1 (by norm_num) (by norm_num)).2.1,
   ((fibLevelBounds 100 200 (1618/1000) (by norm_num)).2 (by norm_num) (by norm_num)).1⟩

/-! ## Claim C6 -/

/-- Claim C6: whenever the backend detector honours its specified
invariant that every reported reliability score lies in the unit
interval, every pattern the transform delivers also has its
reliability_score in the unit interval, an absent backend score being
defaulted to zero. -/
theorem reliabilityScoreUnitInterval (symbol nowIso : String) (b : BackendResponse)
    (h : ∀ p ∈ backendPatterns b, ∀ v, p.reliability_score = some v → 0 ≤ v ∧ v ≤ 1) :
    ∀ q ∈ (getComprehensiveAnalysis symbol nowIso b).active_patterns,
      0 ≤ q.reliability_score ∧ q.reliability_score ≤ 1 := by
  intro q hq
  have hmap : (getComprehensiveAnalysis symbol nowIso b).active_patterns =
      (backendPatterns b).map mapPattern := rfl
  rw [hmap] at hq
  rcases List.mem_map.mp hq with ⟨p, hp, rfl⟩
  show 0 ≤ jsOrNum p.reliability_score 0 ∧ jsOrNum p.reliability_score 0 ≤ 1
  cases hrs : p.reliability_score with
  | none => constructor <;> norm_num [jsOrNum]
  | some v =>
    have hv := h p hp v hrs
    by_cases hz : v = 0
    · constructor <;> norm_num [jsOrNum, hz]
    · constructor <;> simp [jsOrNum, hz, hv.1, hv.2]

/-- The in-range pattern of the reliability-score witness input. -/
def patternC6 : BackendPattern :=
  { pattern_id := some "P1", pattern_name := some "Double Top"
  , pattern_type := some "Reversal", reliability_score := some (7/10)
  , bias := some "Bearish" }

/-- Witness for claim C6 on the concrete body with one in-range and one
absent backend score. -/
theorem reliabilityScoreUnitInterval_witness :
    0 ≤ (mapPattern patternC6).reliability_score ∧
    (mapPattern patternC6).reliability_score ≤ 1 :=
  reliabilityScoreUnitInterval "HDFCBANK" "2024-03-01T09:15:00.000Z" backendC6
    (by
      intro p hp v hv
      simp only [backendPatterns, backendC6, backendEmpty, Option.getD, List.mem_cons,
        List.not_mem_nil, or_false] at hp
      rcases hp with h1 | h2
      · subst h1
        injection hv with hv
        subst hv
        constructor <;> norm_num
      · subst h2
        exact absurd hv (by simp))
    (mapPattern patternC6)
    (by simp [getComprehensiveAnalysis, backendPatterns, backendC6, backendEmpty, patternC6])

/-! ## Claim C7 -/

/-- Claim C7: a series shorter than the engine floor makes the analysis
fail with InsufficientDataError; the store then records the error message
and leaves the stored analysis exactly as it was, with the loading flag
lowered — no partial result is ever merged in. -/
theorem insufficientDataAtomic (st : MarketStoreState IndicatorBank)
    (nMin minLen : ℕ) (volEst entEst fracEst : List ℚ → ℚ × String)
    (s : List ℚ) (h : s.length < nMin) :
    (getAnalysis st (engineOutcome
      (analyzeIndicators nMin minLen volEst entEst fracEst s))).analysis = st.analysis ∧
    (getAnalysis st (engineOutcome
      (analyzeIndicators nMin minLen volEst entEst fracEst s))).analysisError =
      some "InsufficientDataError" ∧
    (getAnalysis st (engineOutcome
      (analyzeIndicators nMin minLen volEst entEst fracEst s))).isLoadingAnalysis = false := by
  unfold analyzeIndicators
  rw [if_pos h]
  refine ⟨rfl, ?_, rfl⟩
  show some (jsOrString (some (errorMessage .insufficientData)) "Failed to load analysis") =
    some "InsufficientDataError"
  rfl

/-- A trivial numeric estimator used by the engine witnesses. -/
def estZero : List ℚ → ℚ × String := fun _ => (0, "flat")

/-- The stored state used by the atomic-failure witness: an earlier
analysis is present and must survive the failed refresh. -/
def stC7 : MarketStoreState IndicatorBank :=
  { analysis := some { volatility := .unavailable, entropy := .unavailable
                     , fractal := .unavailable }
  , analysisError := none
  , isLoadingAnalysis := false }

/-- Witness for claim C7 on a two-bar series against a floor of thirty. -/
theorem insufficientDataAtomic_witness :
    (getAnalysis stC7 (engineOutcome
      (analyzeIndicators 30 20 estZero estZero estZero [1, 2]))).analysis = stC7.analysis ∧
    (getAnalysis stC7 (engineOutcome
      (analyzeIndicators 30 20 estZero estZero estZero [1, 2]))).analysisError =
      some "InsufficientDataError" ∧
    (getAnalysis stC7 (engineOutcome
      (analyzeIndicators 30 20 estZero estZero estZero [1, 2]))).isLoadingAnalysis = false :=
  insufficientDataAtomic stC7 30 20 estZero estZero estZero [1, 2] (by norm_num)

/-! ## Claim C8 -/

/-- Claim C8: on a constant-price series long enough to clear the engine
floor, the run still completes, and the volatility, entropy and fractal
indicators each answer one of the two explicit degenerate states — their
numeric branches, whatever the estimators, are never reached. -/
theorem constantSeriesDegenerate (nMin minLen n : ℕ) (c : ℚ)
    (volEst entEst fracEst : List ℚ → ℚ × String) (hn : nMin ≤ n) :
    ∃ bank,
      analyzeIndicators nMin minLen volEst entEst fracEst (List.replicate n c) =
        .ok bank ∧
      (bank.volatility = .insufficientData ∨ bank.volatility = .unavailable) ∧
      (bank.entropy = .insufficientData ∨ bank.entropy = .unavailable) ∧
      (bank.fractal = .insufficientData ∨ bank.fractal = .unavailable) := by
  have hz := zeroVariance_replicate n c
  have hnl : ¬ (List.replicate n c).length < nMin := by
    rw [List.length_replicate]
    omega
  refine ⟨{ volatility := runIndicator minLen volEst (List.replicate n c)
          , entropy := runIndicator minLen entEst (List.replicate n c)
          , fractal := runIndicator minLen fracEst (List.replicate n c) },
    ?_, ?_, ?_, ?_⟩
  · unfold analyzeIndicators
    rw [if_neg hnl]
  · exact runIndicator_flat minLen volEst _ hz
  · exact runIndicator_flat minLen entEst _ hz
  · exact runIndicator_flat minLen fracEst _ hz

/-- Witness for claim C8 on a six-bar constant series at price 100. -/
theorem constantSeriesDegenerate_witness :
    ∃ bank,
      analyzeIndicators 5 3 estZero estZero estZero (List.replicate 6 (100 : ℚ)) =
        .ok bank ∧
      (bank.volatility = .insufficientData ∨ bank.volatility = .unavailable) ∧
      (bank.entropy = .insufficientData ∨ bank.entropy = .unavailable) ∧
      (bank.fractal = .insufficientData ∨ bank.fractal = .unavailable) :=
  constantSeriesDegenerate 5 3 6 100 estZero estZero estZero (by norm_num)

/-! ## Claim C9 -/

/-- Claim C9: every retracement level the transform delivers has a
non-negative distance_percent (the transform takes an absolute value),
and a key level whose backend distance is absent maps to distance zero. -/
theorem distancePercentNonneg (symbol nowIso : String) (b : BackendResponse) :
    (∀ lv ∈ (getComprehensiveAnalysis symbol nowIso
        b).fibonacci_analysis.fibonacci_retracements.retracement_levels,
      0 ≤ lv.distance_percent) ∧
    (∀ l ∈ backendKeyLevels b, l.distance_percent = none →
      (mapKeyLevel l).distance_percent = 0) := by
  constructor
  · intro lv hlv
    have hmap : (getComprehensiveAnalysis symbol nowIso
        b).fibonacci_analysis.fibonacci_retracements.retracement_levels =
        (backendKeyLevels b).map mapKeyLevel := rfl
    rw [hmap] at hlv
    rcases List.mem_map.mp hlv with ⟨l, -, rfl⟩
    show 0 ≤ |jsOrNum l.distance_percent 0|
    exact abs_nonneg _
  · intro l hl h
    show |jsOrNum l.distance_percent 0| = 0
    rw [h]
    show |(0 : ℚ)| = 0
    exact abs_zero

/-- Witness for claim C9 on the concrete key level with an absent
distance field. -/
theorem distancePercentNonneg_witness :
    0 ≤ (mapKeyLevel keyLevelC9).distance_percent ∧
    (mapKeyLevel keyLevelC9).distance_percent = 0 :=
  ⟨(distancePercentNonneg "ITC" "2024-03-01T09:15:00.000Z" backendC9).1
      (mapKeyLevel keyLevelC9)
      (by simp [getComprehensiveAnalysis, backendKeyLevels, backendC9, backendEmpty]),
   (distancePercentNonneg "ITC" "2024-03-01T09:15:00.000Z" backendC9).2 keyLevelC9
      (by simp [backendKeyLevels, backendC9, backendEmpty])
      rfl⟩

/-! ## Claim C10 -/

/-- Counterexample to claim C10 as stated: this token's payload segment
base64-decodes to a two-character string that parses as the empty JSON
object, so it lacks a numeric exp field, yet isTokenExpired reports it as
NOT expired — the undefined exp makes the comparison NaN-false instead of
the claimed true. -/
theorem tokenWithoutExpNotExpired :
    atob (tokenPayloadPart "a.e30=.c") = some (String.mk [lbrace, rbrace]) ∧
    (∃ fields, jsonParse (String.mk [lbrace, rbrace]) = some (JsonVal.obj fields) ∧
      jsonLookup fields "exp" = none) ∧
    isTokenExpired "a.e30=.c" 1700000000000 = false :=
  ⟨by decide, ⟨[], rfl, rfl⟩, by decide⟩

/-- Claim C10 (amended): isTokenExpired is total and returns a boolean on
every input string; a token whose payload segment fails to base64-decode
or to parse as JSON yields true, as does a JSON-null payload (whose
property access throws); but a token whose payload parses as a JSON
object with no exp member yields false — such malformed tokens count as
not expired. -/
theorem tokenExpiryFallback (token : String) (nowMs : ℚ) :
    (atob (tokenPayloadPart token) = none → isTokenExpired token nowMs = true) ∧
    (∀ decoded, atob (tokenPayloadPart token) = some decoded →
      jsonParse decoded = none → isTokenExpired token nowMs = true) ∧
    (∀ decoded, atob (tokenPayloadPart token) = some decoded →
      jsonParse decoded = some JsonVal.null → isTokenExpired token nowMs = true) ∧
    (∀ decoded fields, atob (tokenPayloadPart token) = some decoded →
      jsonParse decoded = some (JsonVal.obj fields) → jsonLookup fields "exp" = none →
      isTokenExpired token nowMs = false) := by
  refine ⟨fun h => ?_, fun d h1 h2 => ?_, fun d h1 h2 => ?_, fun d fs h1 h2 h3 => ?_⟩
  · simp [isTokenExpired, h]
  · simp [isTokenExpired, h1, h2]
  · simp [isTokenExpired, h1, h2]
  · simp [isTokenExpired, h1, h2, h3, jsToNumber]

/-- Witness for claim C10: a token with no dot separator is expired, a
token with an exp-free JSON-object payload is not. -/
theorem tokenExpiryFallback_witness :
    isTokenExpired "x" 0 = true ∧ isTokenExpired "a.e30=.c" 0 = false :=
  ⟨(tokenExpiryFallback "x" 0).1 (by decide),
   (tokenExpiryFallback "a.e30=.c" 0).2.2.2 (String.mk [lbrace, rbrace]) []
     (by decide) rfl rfl⟩
